import Mathlib

/-!
Shallow embedding of the confique repository's schema/value data model
(`src/meta.rs`) and error taxonomy (`src/error.rs`), with theorems
checking the specification's statements about them.

Rust `f32`/`f64` payloads are embedded as their IEEE-754 bit patterns
(`Nat`), because the only operation the repository performs on them that
matters here is the derived `PartialEq`, which is IEEE-754 equality:
NaN compares unequal to everything (itself included), and the two zero
bit patterns compare equal.  Machine integers are embedded as `Nat`/`Int`
(no arithmetic is performed on them in this code, so overflow never
matters).  Rust `&'static str` and `PathBuf` payloads are embedded as
`String` (`PathBuf::display` renders the path's text).  The type-erased
error payloads `std::io::Error` and `Box<dyn Error + Send + Sync>` are
embedded as type parameters.
-/

namespace Confique

/-- Exponent field of an IEEE-754 single-precision bit pattern (bits 23..30). -/
def f32Exponent (bits : Nat) : Nat := bits / 2 ^ 23 % 2 ^ 8

/-- Mantissa field of an IEEE-754 single-precision bit pattern (bits 0..22). -/
def f32Mantissa (bits : Nat) : Nat := bits % 2 ^ 23

/-- An `f32` bit pattern is a NaN iff its exponent is all ones and its
mantissa is nonzero. -/
def f32IsNaN (bits : Nat) : Bool := f32Exponent bits == 255 && f32Mantissa bits != 0

/-- An `f32` bit pattern is a (positive or negative) zero iff everything
but the sign bit is zero. -/
def f32IsZero (bits : Nat) : Bool := bits % 2 ^ 31 == 0

/-- IEEE-754 equality on `f32` bit patterns, the semantics of Rust's
`PartialEq for f32`: NaN is equal to nothing, `+0.0 == -0.0`, and
otherwise two values are equal iff their bit patterns coincide. -/
def f32Eq (a b : Nat) : Bool :=
  !f32IsNaN a && !f32IsNaN b && (a == b || (f32IsZero a && f32IsZero b))

/-- Exponent field of an IEEE-754 double-precision bit pattern (bits 52..62). -/
def f64Exponent (bits : Nat) : Nat := bits / 2 ^ 52 % 2 ^ 11

/-- Mantissa field of an IEEE-754 double-precision bit pattern (bits 0..51). -/
def f64Mantissa (bits : Nat) : Nat := bits % 2 ^ 52

/-- An `f64` bit pattern is a NaN iff its exponent is all ones and its
mantissa is nonzero. -/
def f64IsNaN (bits : Nat) : Bool := f64Exponent bits == 2047 && f64Mantissa bits != 0

/-- An `f64` bit pattern is a (positive or negative) zero iff everything
but the sign bit is zero. -/
def f64IsZero (bits : Nat) : Bool := bits % 2 ^ 63 == 0

/-- IEEE-754 equality on `f64` bit patterns, the semantics of Rust's
`PartialEq for f64`. -/
def f64Eq (a b : Nat) : Bool :=
  !f64IsNaN a && !f64IsNaN b && (a == b || (f64IsZero a && f64IsZero b))

/-- `enum Float { F32(f32), F64(f64) }` from `src/meta.rs`, payloads as
IEEE-754 bit patterns. -/
inductive Float where
  | F32 (bits : Nat)
  | F64 (bits : Nat)

/-- Derived `PartialEq for Float`: same variant and IEEE-equal payloads. -/
def floatEq : Float → Float → Bool
  | .F32 a, .F32 b => f32Eq a b
  | .F64 a, .F64 b => f64Eq a b
  | _, _ => false

/-- Whether a `Float`'s payload is a NaN bit pattern. -/
def floatIsNaN : Float → Bool
  | .F32 b => f32IsNaN b
  | .F64 b => f64IsNaN b

/-- `enum Integer` from `src/meta.rs`: twelve machine-integer widths.
Unsigned payloads are embedded as `Nat`, signed ones as `Int`; the code
performs no arithmetic on them, so the width bound is never exercised
and is recorded only by the constructor tag. -/
inductive Integer where
  | U8 (v : Nat)
  | U16 (v : Nat)
  | U32 (v : Nat)
  | U64 (v : Nat)
  | U128 (v : Nat)
  | Usize (v : Nat)
  | I8 (v : Int)
  | I16 (v : Int)
  | I32 (v : Int)
  | I64 (v : Int)
  | I128 (v : Int)
  | Isize (v : Int)
  deriving DecidableEq

/-- `enum MapKey` from `src/meta.rs`: the key-capable subset of `Expr`
(no arrays, no maps). -/
inductive MapKey where
  | Str (s : String)
  | Float (f : Float)
  | Integer (i : Integer)
  | Bool (b : Bool)

/-- Derived `PartialEq for MapKey`: same variant and equal payloads,
with float payloads compared by IEEE-754 equality. -/
def mapKeyEq : MapKey → MapKey → Bool
  | .Str a, .Str b => a == b
  | .Float a, .Float b => floatEq a b
  | .Integer a, .Integer b => a == b
  | .Bool a, .Bool b => a == b
  | _, _ => false

/-- Whether a `MapKey`'s payload is free of NaN bit patterns. -/
def mapKeyNoNaN : MapKey → Bool
  | .Float f => !floatIsNaN f
  | _ => true

mutual

/-- `enum Expr` from `src/meta.rs`: the closed literal-value model.
`Map` stores its entries as a sequence in source-code order. -/
inductive Expr where
  | Str (s : String)
  | Float (f : Float)
  | Integer (i : Integer)
  | Bool (b : Bool)
  | Array (xs : List Expr)
  | Map (entries : List MapEntry)

/-- `struct MapEntry { key: MapKey, value: Expr }` from `src/meta.rs`. -/
inductive MapEntry where
  | mk (key : MapKey) (value : Expr)

end

/-- The `key` field of a `MapEntry`. -/
def MapEntry.key : MapEntry → MapKey
  | .mk k _ => k

/-- The `value` field of a `MapEntry`. -/
def MapEntry.value : MapEntry → Expr
  | .mk _ v => v

mutual

/-- Derived `PartialEq for Expr`: same variant and equal payloads; slice
payloads are compared element for element, in order. -/
def exprEq : Expr → Expr → Bool
  | .Str a, .Str b => a == b
  | .Float a, .Float b => floatEq a b
  | .Integer a, .Integer b => a == b
  | .Bool a, .Bool b => a == b
  | .Array xs, .Array ys => exprListEq xs ys
  | .Map xs, .Map ys => entryListEq xs ys
  | _, _ => false

/-- Derived `PartialEq` for a slice of `Expr`: element for element, in order. -/
def exprListEq : List Expr → List Expr → Bool
  | [], [] => true
  | x :: xs, y :: ys => exprEq x y && exprListEq xs ys
  | _, _ => false

/-- Derived `PartialEq` for a slice of `MapEntry`: element for element,
in order, each entry compared field by field. -/
def entryListEq : List MapEntry → List MapEntry → Bool
  | [], [] => true
  | .mk k v :: xs, .mk k' v' :: ys => mapKeyEq k k' && (exprEq v v' && entryListEq xs ys)
  | _, _ => false

end

mutual

/-- Whether an `Expr` is free of NaN float payloads, recursively. -/
def exprNoNaN : Expr → Bool
  | .Float f => !floatIsNaN f
  | .Array xs => exprListNoNaN xs
  | .Map es => entryListNoNaN es
  | _ => true

/-- Whether every `Expr` in a list is free of NaN float payloads. -/
def exprListNoNaN : List Expr → Bool
  | [] => true
  | x :: xs => exprNoNaN x && exprListNoNaN xs

/-- Whether every entry in a list has NaN-free key and value. -/
def entryListNoNaN : List MapEntry → Bool
  | [] => true
  | .mk k v :: es => mapKeyNoNaN k && (exprNoNaN v && entryListNoNaN es)

end

/-- `impl From<MapKey> for Expr` from `src/meta.rs`: the widening
injection of map keys into literal values. -/
def Expr.ofMapKey : MapKey → Expr
  | .Str v => .Str v
  | .Integer v => .Integer v
  | .Float v => .Float v
  | .Bool v => .Bool v

/-- Variant tag of an `Expr`, used to state cross-variant facts. -/
def Expr.tag : Expr → Nat
  | .Str _ => 0
  | .Float _ => 1
  | .Integer _ => 2
  | .Bool _ => 3
  | .Array _ => 4
  | .Map _ => 5

/-!
The ordered map codec.  `serialize_map` in `src/meta.rs` is generic over
a serde `Serializer`; its interaction with any serializer is the call
trace it produces: one `serialize_map(Some(len))` call, one
`serialize_entry(key, value)` call per backing-slice entry in slice
order, and one `end` call.  We embed that trace as a list of events.
-/

/-- One call made by `serialize_map` on the underlying serde serializer. -/
inductive SerEvent where
  | beginMap (len : Option Nat)
  | entry (key : MapKey) (value : Expr)
  | endMap

/-- Whether a serializer event is a `serialize_entry` call. -/
def SerEvent.isEntry : SerEvent → Bool
  | .entry _ _ => true
  | _ => false

/-- The `for entry in *map { s.serialize_entry(&entry.key, &entry.value)? }`
loop of `serialize_map`. -/
def serializeEntries : List MapEntry → List SerEvent
  | [] => []
  | e :: rest => .entry e.key e.value :: serializeEntries rest

/-- `fn serialize_map` from `src/meta.rs`, as the trace of serializer
calls it performs: begin with the length hint, emit every entry of the
backing slice in order, end. -/
def serialize_map (map : List MapEntry) : List SerEvent :=
  .beginMap (some map.length) :: (serializeEntries map ++ [.endMap])

/-- `enum ErrorInner` from `src/error.rs`.  `ι` stands for the opaque
`std::io::Error` payload and `β` for the boxed
`dyn std::error::Error + Send + Sync` payload; paths are embedded as the
text `PathBuf::display` renders. -/
inductive ErrorInner (ι β : Type) where
  | MissingValue (path : String)
  | Io (path : Option String) (err : ι)
  | Deserialization (src : Option String) (err : β)
  | EnvDeserialization (field : String) (key : String) (msg : String)
  | UnsupportedFileFormat (path : String)
  | MissingFileExtension (path : String)
  | MissingRequiredFile (path : String)

/-- `struct Error { inner: Box<ErrorInner> }` from `src/error.rs`. -/
structure Error (ι β : Type) where
  inner : ErrorInner ι β

/-- `impl fmt::Display for Error` from `src/error.rs`, as the full text
the formatter receives. -/
def ErrorInner.display : ErrorInner ι β → String
  | .MissingValue path =>
      "required configuration value is missing: '" ++ path ++ "'"
  | .Io (some path) _ =>
      "IO error occured while reading configuration file '" ++ path ++ "'"
  | .Io none _ =>
      "IO error occured while loading configuration"
  | .Deserialization (some src) _ =>
      "failed to deserialize configuration from " ++ src
  | .Deserialization none _ =>
      "failed to deserialize configuration"
  | .EnvDeserialization field key msg =>
      "failed to deserialize value `" ++ field ++ "` from environment variable `"
        ++ key ++ "`: " ++ msg
  | .UnsupportedFileFormat path =>
      "unknown configuration file format/extension: '" ++ path ++ "'"
  | .MissingFileExtension path =>
      "cannot guess configuration file format due to missing file extension in '"
        ++ path ++ "'"
  | .MissingRequiredFile path =>
      "required configuration file does not exist: '" ++ path ++ "'"

/-- Display on the `Error` wrapper matches on `&*self.inner`. -/
def Error.display (e : Error ι β) : String :=
  e.inner.display

/-- `fn source` of `impl std::error::Error for Error` from
`src/error.rs`.  The two wrapped causes are returned behind the common
`&dyn Error` interface, embedded here as the sum `ι ⊕ β`; every other
kind returns `None`. -/
def Error.source (e : Error ι β) : Option (ι ⊕ β) :=
  match e.inner with
  | .Io _ err => some (Sum.inl err)
  | .Deserialization _ err => some (Sum.inr err)
  | .MissingValue _ => none
  | .EnvDeserialization _ _ _ => none
  | .UnsupportedFileFormat _ => none
  | .MissingFileExtension _ => none
  | .MissingRequiredFile _ => none

/-- `impl fmt::Debug for Error` from `src/error.rs`: its body is
`fmt::Display::fmt(self, f)`, so the text it produces is the Display
text. -/
def Error.debug (e : Error ι β) : String :=
  Error.display e

/-! ## Helper lemmas -/

theorem f32Eq_self (b : Nat) : f32Eq b b = !f32IsNaN b := by
  simp [f32Eq]

theorem f64Eq_self (b : Nat) : f64Eq b b = !f64IsNaN b := by
  simp [f64Eq]

theorem floatEq_self (f : Float) : floatEq f f = !floatIsNaN f := by
  cases f <;> simp [floatEq, floatIsNaN, f32Eq_self, f64Eq_self]

theorem mapKeyEq_self (k : MapKey) (h : mapKeyNoNaN k = true) : mapKeyEq k k = true := by
  cases k <;> simp_all [mapKeyEq, mapKeyNoNaN, floatEq_self]

mutual

theorem exprEq_self : ∀ (e : Expr), exprNoNaN e = true → exprEq e e = true
  | .Str s, _ => by simp [exprEq]
  | .Float f, h => by
      simp [exprNoNaN] at h
      simp [exprEq, floatEq_self, h]
  | .Integer i, _ => by simp [exprEq]
  | .Bool b, _ => by simp [exprEq]
  | .Array xs, h => by
      simp [exprNoNaN] at h
      simp [exprEq, exprListEq_self xs h]
  | .Map es, h => by
      simp [exprNoNaN] at h
      simp [exprEq, entryListEq_self es h]

theorem exprListEq_self : ∀ (xs : List Expr), exprListNoNaN xs = true → exprListEq xs xs = true
  | [], _ => by simp [exprListEq]
  | x :: xs, h => by
      simp [exprListNoNaN] at h
      simp [exprListEq, exprEq_self x h.1, exprListEq_self xs h.2]

theorem entryListEq_self : ∀ (es : List MapEntry), entryListNoNaN es = true → entryListEq es es = true
  | [], _ => by simp [entryListEq]
  | .mk k v :: es, h => by
      simp [entryListNoNaN] at h
      simp [entryListEq, mapKeyEq_self k h.1, exprEq_self v h.2.1, entryListEq_self es h.2.2]

end

theorem serializeEntries_eq_map (m : List MapEntry) :
    serializeEntries m = m.map fun e => SerEvent.entry e.key e.value := by
  induction m with
  | nil => rfl
  | cons e rest ih => simp [serializeEntries, ih]

/-! ## Claim theorems -/

/-- C1, counterexample: displaying
`EnvDeserialization{field: "port", key: "PORT", msg: "invalid digit"}`
does not produce the single-quoted text the specification's template
promises, because the code wraps the field and key in backticks. -/
theorem envDeserialization_display_claim_refuted :
    ¬ ((Error.mk (ErrorInner.EnvDeserialization "port" "PORT" "invalid digit")
          : Error Unit Unit).display
        = "failed to deserialize value 'port' from environment variable 'PORT': invalid digit") := by
  decide

/-- C1 (amended): for every field name, env-var key, and message string,
displaying an `EnvDeserialization` error yields exactly the text
"failed to deserialize value \x60<field>\x60 from environment variable
\x60<key>\x60: <msg>" — the field and key wrapped in backticks, not
single quotes; in particular the `{port, PORT, invalid digit}` instance
displays as that backticked text. -/
theorem envDeserialization_display_spec :
    (∀ (ι β : Type) (field key msg : String),
        (Error.mk (ErrorInner.EnvDeserialization field key msg) : Error ι β).display
          = "failed to deserialize value `" ++ field ++ "` from environment variable `"
              ++ key ++ "`: " ++ msg)
    ∧ (Error.mk (ErrorInner.EnvDeserialization "port" "PORT" "invalid digit")
          : Error Unit Unit).display
        = "failed to deserialize value `port` from environment variable `PORT`: invalid digit" := by
  exact ⟨fun _ _ _ _ _ => rfl, by decide⟩

/-- C2: for every backing slice of map entries, the map serializer's
trace contains exactly one `serialize_entry` event per entry, in
backing-slice order, with no reordering and no deduplication; in
particular the cookie/server map serializes with "cookie" before
"server". -/
theorem serializeMap_entries_in_order :
    (∀ m : List MapEntry,
        (serialize_map m).filter SerEvent.isEntry
          = m.map fun e => SerEvent.entry e.key e.value)
    ∧ (∀ m : List MapEntry,
        ((serialize_map m).filter SerEvent.isEntry).length = m.length)
    ∧ serialize_map
        [MapEntry.mk (.Str "cookie") (.Float (.F32 1069547520)),
         MapEntry.mk (.Str "server") (.Float (.F32 1095447347))]
        = [SerEvent.beginMap (some 2),
           SerEvent.entry (.Str "cookie") (.Float (.F32 1069547520)),
           SerEvent.entry (.Str "server") (.Float (.F32 1095447347)),
           SerEvent.endMap] := by
  have h1 : ∀ m : List MapEntry,
      (serialize_map m).filter SerEvent.isEntry
        = m.map fun e => SerEvent.entry e.key e.value := by
    intro m
    have hcomp : (SerEvent.isEntry ∘ fun e : MapEntry => SerEvent.entry e.key e.value)
        = fun _ => true := funext fun _ => rfl
    simp [serialize_map, serializeEntries_eq_map, List.filter_append, List.filter_map,
      SerEvent.isEntry, hcomp, List.filter_true]
  refine ⟨h1, fun m => by rw [h1 m]; simp, ?_⟩
  rfl

/-- C3: the conversion from `MapKey` to `Expr` is total (a Lean function
defined on all four variants), injective, and preserves the payload
exactly, including its numeric width; in particular
`MapKey::Integer(U16(80))` converts to `Expr::Integer(U16(80))`. -/
theorem ofMapKey_total_injective_preserving :
    Function.Injective Expr.ofMapKey
    ∧ (∀ s, Expr.ofMapKey (.Str s) = .Str s)
    ∧ (∀ f, Expr.ofMapKey (.Float f) = .Float f)
    ∧ (∀ i, Expr.ofMapKey (.Integer i) = .Integer i)
    ∧ (∀ b, Expr.ofMapKey (.Bool b) = .Bool b)
    ∧ Expr.ofMapKey (.Integer (.U16 80)) = .Integer (.U16 80) := by
  refine ⟨?_, fun _ => rfl, fun _ => rfl, fun _ => rfl, fun _ => rfl, rfl⟩
  intro a b h
  cases a <;> cases b <;> simp_all [Expr.ofMapKey]

/-- C3 witness: the injectivity component applied at a concrete key. -/
theorem ofMapKey_injective_witness :
    (MapKey.Bool true) = (MapKey.Bool true) :=
  ofMapKey_total_injective_preserving.1
    (rfl : Expr.ofMapKey (MapKey.Bool true) = Expr.ofMapKey (MapKey.Bool true))

/-- C5: equality on `Expr` is structural: within each variant it is
exactly payload equality, across different variants it is false, and for
`Map` the entry sequences are compared element for element in order —
in particular a two-entry map compares unequal to its reversal. -/
theorem exprEq_structural_spec :
    (∀ a b, exprEq (.Str a) (.Str b) = (a == b))
    ∧ (∀ a b, exprEq (.Float a) (.Float b) = floatEq a b)
    ∧ (∀ a b, exprEq (.Integer a) (.Integer b) = (a == b))
    ∧ (∀ a b, exprEq (.Bool a) (.Bool b) = (a == b))
    ∧ (∀ xs ys, exprEq (.Array xs) (.Array ys) = exprListEq xs ys)
    ∧ (∀ xs ys, exprEq (.Map xs) (.Map ys) = entryListEq xs ys)
    ∧ entryListEq [] [] = true
    ∧ (∀ k v k' v' xs ys,
        entryListEq (MapEntry.mk k v :: xs) (MapEntry.mk k' v' :: ys)
          = (mapKeyEq k k' && (exprEq v v' && entryListEq xs ys)))
    ∧ (∀ k v xs, entryListEq (MapEntry.mk k v :: xs) [] = false)
    ∧ (∀ k v ys, entryListEq [] (MapEntry.mk k v :: ys) = false)
    ∧ (∀ x y, Expr.tag x ≠ Expr.tag y → exprEq x y = false)
    ∧ exprEq
        (.Map [MapEntry.mk (.Str "cookie") (.Bool true),
               MapEntry.mk (.Str "server") (.Bool false)])
        (.Map [MapEntry.mk (.Str "server") (.Bool false),
               MapEntry.mk (.Str "cookie") (.Bool true)])
        = false := by
  refine ⟨fun _ _ => by simp [exprEq], fun _ _ => by simp [exprEq],
    fun _ _ => by simp [exprEq], fun _ _ => by simp [exprEq],
    fun _ _ => by simp [exprEq], fun _ _ => by simp [exprEq],
    by simp [entryListEq], fun _ _ _ _ _ _ => by simp [entryListEq],
    fun _ _ _ => by simp [entryListEq], fun _ _ _ => by simp [entryListEq],
    ?_, by decide⟩
  intro x y h
  cases x <;> cases y <;> simp_all [Expr.tag, exprEq]

/-- C5 witness: the cross-variant component applied at concrete values. -/
theorem exprEq_structural_witness :
    exprEq (Expr.Str "a") (Expr.Bool true) = false :=
  exprEq_structural_spec.2.2.2.2.2.2.2.2.2.2.1 (Expr.Str "a") (Expr.Bool true) (by decide)

/-- C6: for every path string, displaying a `MissingValue` error yields
exactly "required configuration value is missing: '<path>'"; in
particular the `http.port` instance. -/
theorem missingValue_display_spec :
    (∀ (ι β : Type) (path : String),
        (Error.mk (ErrorInner.MissingValue path) : Error ι β).display
          = "required configuration value is missing: '" ++ path ++ "'")
    ∧ (Error.mk (ErrorInner.MissingValue "http.port") : Error Unit Unit).display
        = "required configuration value is missing: 'http.port'" := by
  exact ⟨fun _ _ _ => rfl, by decide⟩

/-- C7: displaying an `Io` error with a path present yields exactly
"IO error occured while reading configuration file '<path>'", and with
no path yields exactly "IO error occured while loading configuration";
in particular the `/etc/app.toml` instance. -/
theorem io_display_spec :
    (∀ (ι β : Type) (p : String) (c : ι),
        (Error.mk (ErrorInner.Io (some p) c) : Error ι β).display
          = "IO error occured while reading configuration file '" ++ p ++ "'")
    ∧ (∀ (ι β : Type) (c : ι),
        (Error.mk (ErrorInner.Io none c) : Error ι β).display
          = "IO error occured while loading configuration")
    ∧ (Error.mk (ErrorInner.Io (some "/etc/app.toml") ()) : Error Unit Unit).display
        = "IO error occured while reading configuration file '/etc/app.toml'" := by
  exact ⟨fun _ _ _ _ => rfl, fun _ _ _ => rfl, by decide⟩

/-- C8: the chained underlying cause is present exactly when the kind is
`Io` or `Deserialization`, in which case it is the wrapped underlying
error; the other five kinds have no cause. -/
theorem error_source_spec :
    (∀ (ι β : Type) (p : Option String) (c : ι),
        (Error.mk (ErrorInner.Io p c) : Error ι β).source = some (Sum.inl c))
    ∧ (∀ (ι β : Type) (s : Option String) (c : β),
        (Error.mk (ErrorInner.Deserialization s c) : Error ι β).source = some (Sum.inr c))
    ∧ (∀ (ι β : Type) (p : String),
        (Error.mk (ErrorInner.MissingValue p) : Error ι β).source = none)
    ∧ (∀ (ι β : Type) (f k m : String),
        (Error.mk (ErrorInner.EnvDeserialization f k m) : Error ι β).source = none)
    ∧ (∀ (ι β : Type) (p : String),
        (Error.mk (ErrorInner.UnsupportedFileFormat p) : Error ι β).source = none)
    ∧ (∀ (ι β : Type) (p : String),
        (Error.mk (ErrorInner.MissingFileExtension p) : Error ι β).source = none)
    ∧ (∀ (ι β : Type) (p : String),
        (Error.mk (ErrorInner.MissingRequiredFile p) : Error ι β).source = none)
    ∧ (∀ (ι β : Type) (e : Error ι β),
        (e.source).isSome = true ↔
          (∃ p c, e.inner = ErrorInner.Io p c)
            ∨ (∃ s c, e.inner = ErrorInner.Deserialization s c)) := by
  refine ⟨fun i1 b1 p1 c1 => rfl, fun i2 b2 s2 c2 => rfl, fun i3 b3 p3 => rfl,
    fun i4 b4 f4 k4 m4 => rfl, fun i5 b5 p5 => rfl, fun i6 b6 p6 => rfl,
    fun i7 b7 p7 => rfl, ?_⟩
  intro ι β e
  obtain ⟨inner⟩ := e
  cases inner <;> simp [Error.source]

/-- C8 witness: the characterization applied at a concrete `Io` error. -/
theorem error_source_witness :
    ((Error.mk (ErrorInner.Io (some "f") 0) : Error Nat Nat).source).isSome = true :=
  (error_source_spec.2.2.2.2.2.2.2 Nat Nat
      (Error.mk (ErrorInner.Io (some "f") 0))).mpr
    (Or.inl ⟨some "f", 0, rfl⟩)

/-- C9: for every `Error` value, the Debug text equals the Display text,
because the Debug implementation delegates to Display. -/
theorem debug_eq_display :
    ∀ (ι β : Type) (e : Error ι β), e.debug = e.display :=
  fun _ _ _ => rfl

/-- C10: structural equality on `Expr` is not reflexive in general: an
`Expr::Float` holding the NaN bit pattern 0x7FC00000 is unequal to
itself, while every `Expr` free of NaN payloads is equal to itself. -/
theorem exprEq_nan_not_reflexive :
    exprEq (.Float (.F32 2143289344)) (.Float (.F32 2143289344)) = false
    ∧ (∀ e : Expr, exprNoNaN e = true → exprEq e e = true) :=
  ⟨by decide, exprEq_self⟩

/-- C10 witness: reflexivity applied at a concrete NaN-free literal. -/
theorem exprEq_nan_witness :
    exprEq (Expr.Bool true) (Expr.Bool true) = true :=
  exprEq_nan_not_reflexive.2 (Expr.Bool true) (by decide)

end Confique
